import Mathlib

/-!
Shallow embedding of the Litmos user-management tool (src/app.py) and
verification of its specification claims.

The embedding models the core of the program: the payload sanitizer
`sanitize_user_data`, the lifecycle operations `activate_user` and
`deactivate_user`, and the batch loop of `process_csv`.  Remote HTTP
responses are supplied through an explicit environment (`Env`), and every
outbound HTTP request an operation issues is recorded in an ordered call
log, so that claims about which calls are or are not issued can be stated
and proved.
-/

namespace LitmosTool

/-- Models a JSON scalar value as it appears in the Litmos API payloads
handled by src/app.py.  The tool only ever reads and writes scalar fields
(strings, booleans, integers, JSON null). -/
inductive Val where
  | vStr (s : String)
  | vBool (b : Bool)
  | vInt (n : Int)
  | vNull
deriving DecidableEq, Repr

/-- Models a Python dict with string keys as an insertion-ordered
association list.  Dicts produced by Python code have unique keys; lookup
returns the first binding. -/
abbrev PyDict := List (String × Val)

/-- Models Python key lookup: the first binding for the key, if any
(`d[k]` when present, and the test `k in d`). -/
def PyDict.lookup : PyDict → String → Option Val
  | [], _ => none
  | (k', v) :: rest, k => if k' = k then some v else PyDict.lookup rest k

/-- Models Python `d.get(k, dflt)`. -/
def PyDict.getD (d : PyDict) (k : String) (dflt : Val) : Val :=
  (PyDict.lookup d k).getD dflt

/-- Models Python assignment `d[k] = v`: the first binding of `k` is
replaced in place, otherwise the new binding is appended at the end. -/
def PyDict.insert : PyDict → String → Val → PyDict
  | [], k, v => [(k, v)]
  | (k', v') :: rest, k, v =>
    if k' = k then (k, v) :: rest else (k', v') :: PyDict.insert rest k v

/-- Models the dict comprehension of src/app.py line 96: iterate the key
list in order and keep the bindings of the keys present in `d`. -/
def PyDict.project (d : PyDict) (ks : List String) : PyDict :=
  ks.filterMap fun k => (PyDict.lookup d k).map fun v => (k, v)

/-- Models Python truthiness `bool(v)` of a JSON scalar. -/
def truthy : Val → Bool
  | .vStr s => s != ""
  | .vBool b => b
  | .vInt n => n != 0
  | .vNull => false

/-- Models Python `str(v)` of a scalar, as used in f-string interpolation. -/
def pyStr : Val → String
  | .vStr s => s
  | .vBool true => "True"
  | .vBool false => "False"
  | .vInt n => toString n
  | .vNull => "None"

/-- Models Python `s.lower()` on a string: ASCII lowering, done by mapping
over the character list so that it reduces structurally.  It agrees with
the usernames this tool handles. -/
def strLower (s : String) : String := ⟨s.data.map Char.toLower⟩

/-- Name of the Python type of a scalar value, used in the text of an
attribute-access exception. -/
def pyTypeName : Val → String
  | .vStr _ => "str"
  | .vBool _ => "bool"
  | .vInt _ => "int"
  | .vNull => "NoneType"

/-- Models Python `v.lower()`: defined only on strings; on any other value
the attribute access raises, which the operations' try/except wrapper turns
into an error result.  Exception text abbreviates the CPython wording. -/
def pyLower : Val → Except String String
  | .vStr s => .ok (strLower s)
  | v => .error (pyTypeName v ++ " object has no attribute lower")

/-- The allow-list of mutable update fields, src/app.py line 95. -/
def allowedFields : List String :=
  ["Id", "FirstName", "LastName", "Email", "Active", "UserName"]

/-- The three location fields that `deactivate_user` blanks in its update
payload (src/app.py lines 170-172). -/
def locationFields : List String := ["Region", "Area", "Country"]

/-- Models `sanitize_user_data` (src/app.py lines 94-98): keep only the
allow-listed fields of the record, then set `Active` to the requested
status. -/
def sanitize_user_data (user_data : PyDict) (active_status : Bool) : PyDict :=
  let clean := PyDict.project user_data allowedFields
  PyDict.insert clean "Active" (Val.vBool active_status)

/-- Models the update body built by `deactivate_user` (src/app.py lines
169-172): the sanitized record with the three location fields forced to the
empty string. -/
def deactivationPayload (user_data : PyDict) : PyDict :=
  PyDict.insert
    (PyDict.insert
      (PyDict.insert (sanitize_user_data user_data false) "Region" (Val.vStr ""))
      "Area" (Val.vStr ""))
    "Country" (Val.vStr "")

/-- Models the per-username result record produced by both lifecycle
operations. -/
structure OperationResult where
  username : String
  success : Bool
  message : String
deriving DecidableEq, Repr

/-- Models one outbound HTTP request, identified by the `requests` call of
src/app.py that issues it; the request URL is a fixed function of these
parameters. -/
inductive Call where
  | searchUsers (username : String)
  | getUserDetails (userId : Val)
  | putUpdate (userId : Val) (payload : PyDict)
  | getTeams (userId : Val)
  | removeFromTeam (teamId : Val) (userId : Val)
deriving DecidableEq, Repr

/-- Tests whether a call is an update (PUT) request. -/
def Call.isPut : Call → Bool
  | .putUpdate _ _ => true
  | _ => false

/-- Tests whether a call belongs to the team-cleanup phase (team listing or
team removal). -/
def Call.isTeamCall : Call → Bool
  | .getTeams _ => true
  | .removeFromTeam _ _ => true
  | _ => false

/-- Models the remote responses that one lifecycle operation observes:
status code, parsed JSON body and raw text for each endpoint it may hit.
Team-removal responses are given per team id; in the source their status
only selects a log warning. -/
structure Env where
  searchStatus : Nat
  searchBody : List PyDict
  searchText : String
  detailsStatus : Nat
  detailsBody : PyDict
  detailsText : String
  updateStatus : Nat
  updateText : String
  teamsStatus : Nat
  teamsBody : List PyDict
  teamsText : String
  removeStatus : Val → Nat
  removeText : Val → String

/-- Models the generator expression of src/app.py lines 109 and 150: the
first candidate record whose `UserName` (defaulting to the empty string)
lower-cases to the lower-cased requested username; a non-string `UserName`
raises inside the generator, reported here as an error. -/
def findMatch (users : List PyDict) (username : String) :
    Except String (Option PyDict) :=
  match users with
  | [] => .ok none
  | u :: rest =>
    match pyLower (PyDict.getD u "UserName" (Val.vStr "")) with
    | .error e => .error e
    | .ok s =>
      if s = strLower username then .ok (some u) else findMatch rest username

/-- Decidable equality for exception-or-value results, used to evaluate the
embedding on concrete inputs. -/
instance {ε α : Type} [DecidableEq ε] [DecidableEq α] :
    DecidableEq (Except ε α) := fun a b =>
  match a, b with
  | .ok x, .ok y =>
    if h : x = y then .isTrue (by rw [h]) else .isFalse (by simp [h])
  | .error x, .error y =>
    if h : x = y then .isTrue (by rw [h]) else .isFalse (by simp [h])
  | .ok _, .error _ => .isFalse (by simp)
  | .error _, .ok _ => .isFalse (by simp)

/-- Output of one lifecycle operation: its result record, the HTTP calls it
issued in order, and the warnings it logged. -/
structure OpOutput where
  result : OperationResult
  calls : List Call
  warnings : List String
deriving DecidableEq, Repr

/-- Models the team-removal loop of src/app.py lines 185-190: one DELETE
call per team, in team order; a removal status outside 200 and 204 only
logs a warning and never affects the result. -/
def removeTeams (username : String) (userId : Val) (env : Env)
    (teams : List PyDict) : List Call × List String :=
  match teams with
  | [] => ([], [])
  | team :: rest =>
    let teamId := PyDict.getD team "Id" Val.vNull
    let warn :=
      if env.removeStatus teamId ∉ ([200, 204] : List Nat) then
        ["Failed to remove user " ++ username ++ " from team " ++
          pyStr teamId ++ ": " ++ env.removeText teamId]
      else []
    let restOut := removeTeams username userId env rest
    (Call.removeFromTeam teamId userId :: restOut.1, warn ++ restOut.2)

/-- Models `activate_user` (src/app.py lines 100-139), with `env` supplying
the remote responses.  The try/except wrapper surfaces the only in-scope
exception (a non-string `UserName` among search candidates) as an error
result. -/
def activate_user (username : String) (env : Env) : OpOutput :=
  let calls0 := [Call.searchUsers username]
  if env.searchStatus ≠ 200 then
    ⟨⟨username, false, "Failed to find user: " ++ env.searchText⟩, calls0, []⟩
  else
    match findMatch env.searchBody username with
    | .error e => ⟨⟨username, false, "Error: " ++ e⟩, calls0, []⟩
    | .ok none => ⟨⟨username, false, "User not found"⟩, calls0, []⟩
    | .ok (some user) =>
      let userId := PyDict.getD user "Id" Val.vNull
      if truthy (PyDict.getD user "Active" (Val.vBool false)) then
        ⟨⟨username, false,
          "Error: User is already active. Duplicate activation attempt."⟩,
          calls0, []⟩
      else
        let calls1 := calls0 ++ [Call.getUserDetails userId]
        if env.detailsStatus ≠ 200 then
          ⟨⟨username, false,
            "Failed to get user details: " ++ env.detailsText⟩, calls1, []⟩
        else
          let update_data := sanitize_user_data env.detailsBody true
          let calls2 := calls1 ++ [Call.putUpdate userId update_data]
          if env.updateStatus ∈ ([200, 201, 204] : List Nat) then
            ⟨⟨username, true, "User activated successfully"⟩, calls2, []⟩
          else
            ⟨⟨username, false,
              "Failed to activate user: " ++ env.updateText⟩, calls2, []⟩

/-- Models `deactivate_user` (src/app.py lines 141-202), with `env`
supplying the remote responses.  The team-cleanup phase never changes the
result: a failed team listing or team removal only logs a warning. -/
def deactivate_user (username : String) (env : Env) : OpOutput :=
  let calls0 := [Call.searchUsers username]
  if env.searchStatus ≠ 200 then
    ⟨⟨username, false, "Failed to find user: " ++ env.searchText⟩, calls0, []⟩
  else
    match findMatch env.searchBody username with
    | .error e => ⟨⟨username, false, "Error: " ++ e⟩, calls0, []⟩
    | .ok none => ⟨⟨username, false, "User not found"⟩, calls0, []⟩
    | .ok (some user) =>
      let userId := PyDict.getD user "Id" Val.vNull
      if ¬ truthy (PyDict.getD user "Active" (Val.vBool true)) then
        ⟨⟨username, false,
          "Error: User is already inactive. Duplicate deactivation attempt."⟩,
          calls0, []⟩
      else
        let calls1 := calls0 ++ [Call.getUserDetails userId]
        if env.detailsStatus ≠ 200 then
          ⟨⟨username, false,
            "Failed to get user details: " ++ env.detailsText⟩, calls1, []⟩
        else
          let update_data := deactivationPayload env.detailsBody
          let calls2 := calls1 ++ [Call.putUpdate userId update_data]
          if env.updateStatus ∉ ([200, 201, 204] : List Nat) then
            ⟨⟨username, false,
              "Failed to deactivate user: " ++ env.updateText⟩, calls2, []⟩
          else
            let calls3 := calls2 ++ [Call.getTeams userId]
            let teamPhase :=
              if env.teamsStatus = 200 then
                removeTeams username userId env env.teamsBody
              else
                ([], ["Failed to retrieve teams for user " ++ username ++
                  ": " ++ env.teamsText])
            ⟨⟨username, true,
              "User deactivated, removed from all teams, and profile data cleared"⟩,
              calls3 ++ teamPhase.1, teamPhase.2⟩

/-- Models the per-row loop of `process_csv` (src/app.py lines 77-84) over
rows pairing each username with the remote responses its operation
observes.  The accumulators carry the results appended so far and the HTTP
calls issued so far; an unrecognized operation type makes the loop body
return a batch-level error on the first row it examines. -/
def processRows (operation_type : String) (rows : List (String × Env))
    (results : List OperationResult) (calls : List Call) :
    Except (String × List Call) (List OperationResult × List Call) :=
  match rows with
  | [] => .ok (results, calls)
  | (username, env) :: rest =>
    if operation_type = "activation" then
      let out := activate_user username env
      processRows operation_type rest (results ++ [out.result]) (calls ++ out.calls)
    else if operation_type = "deactivation" then
      let out := deactivate_user username env
      processRows operation_type rest (results ++ [out.result]) (calls ++ out.calls)
    else
      .error ("Invalid operation type", calls)

/-- Models the batch runner of `process_csv` (src/app.py lines 74-88): the
ordered username list is processed by the loop starting from empty
accumulators.  A successful batch yields the ordered result list and the
full call log; an invalid operation type yields the batch-level error
message together with the calls issued before the error. -/
def process_csv (operation_type : String) (rows : List (String × Env)) :
    Except (String × List Call) (List OperationResult × List Call) :=
  processRows operation_type rows [] []

/-! Lemmas about the dict operations. -/

theorem PyDict.lookup_insert (d : PyDict) (k : String) (v : Val) (k' : String) :
    PyDict.lookup (PyDict.insert d k v) k' =
      if k' = k then some v else PyDict.lookup d k' := by
  induction d with
  | nil =>
    simp only [PyDict.insert, PyDict.lookup]
    by_cases h : k' = k <;> simp_all [eq_comm]
  | cons hd tl ih =>
    obtain ⟨a, b⟩ := hd
    simp only [PyDict.insert, PyDict.lookup]
    by_cases ha : a = k <;> by_cases hk : k' = k <;>
      simp_all [PyDict.lookup, eq_comm]

theorem PyDict.lookup_project (d : PyDict) (ks : List String) (k : String) :
    PyDict.lookup (PyDict.project d ks) k =
      if k ∈ ks then PyDict.lookup d k else none := by
  induction ks with
  | nil => simp [PyDict.project, PyDict.lookup]
  | cons a ks' ih =>
    simp only [PyDict.project, List.filterMap_cons] at *
    cases h : PyDict.lookup d a with
    | none =>
      by_cases hk : k = a <;> by_cases hk' : k ∈ ks' <;> simp_all
    | some v =>
      simp only [Option.map_some, PyDict.lookup]
      by_cases hk : a = k <;> simp_all [eq_comm]

theorem PyDict.mem_insert (p : String × Val) (d : PyDict) (k : String) (v : Val) :
    p ∈ PyDict.insert d k v → p = (k, v) ∨ p ∈ d := by
  induction d with
  | nil => simp [PyDict.insert]
  | cons hd tl ih =>
    obtain ⟨a, b⟩ := hd
    simp only [PyDict.insert]
    by_cases ha : a = k <;> simp_all [List.mem_cons] <;> tauto

theorem PyDict.mem_project (p : String × Val) (d : PyDict) (ks : List String) :
    p ∈ PyDict.project d ks → p.1 ∈ ks := by
  induction ks with
  | nil => simp [PyDict.project]
  | cons a ks' ih =>
    simp only [PyDict.project, List.filterMap_cons] at ih ⊢
    cases h : PyDict.lookup d a with
    | none =>
      simp only [h, Option.map_none']
      intro hm
      exact List.mem_cons_of_mem _ (ih hm)
    | some v =>
      simp only [h, Option.map_some', List.mem_cons]
      intro hm
      rcases hm with h' | hm
      · simp [h']
      · exact Or.inr (ih hm)

/-! Lemmas about the sanitizer and the deactivation payload. -/

theorem lookup_sanitize (r : PyDict) (a : Bool) (k : String) :
    PyDict.lookup (sanitize_user_data r a) k =
      if k = "Active" then some (Val.vBool a)
      else if k ∈ allowedFields then PyDict.lookup r k else none := by
  unfold sanitize_user_data
  rw [PyDict.lookup_insert, PyDict.lookup_project]

theorem mem_sanitize (p : String × Val) (r : PyDict) (a : Bool) :
    p ∈ sanitize_user_data r a → p.1 ∈ allowedFields := by
  intro hp
  rcases PyDict.mem_insert _ _ _ _ hp with h | h
  · subst h; simp [allowedFields]
  · exact PyDict.mem_project _ _ _ h

theorem lookup_deactivationPayload (r : PyDict) (k : String) :
    PyDict.lookup (deactivationPayload r) k =
      if k = "Country" then some (Val.vStr "")
      else if k = "Area" then some (Val.vStr "")
      else if k = "Region" then some (Val.vStr "")
      else if k = "Active" then some (Val.vBool false)
      else if k ∈ allowedFields then PyDict.lookup r k else none := by
  unfold deactivationPayload
  rw [PyDict.lookup_insert, PyDict.lookup_insert, PyDict.lookup_insert,
    lookup_sanitize]

theorem mem_deactivationPayload (p : String × Val) (r : PyDict) :
    p ∈ deactivationPayload r → p.1 ∈ allowedFields ++ locationFields := by
  intro hp
  rcases PyDict.mem_insert _ _ _ _ hp with h | h
  · subst h; simp [allowedFields, locationFields]
  rcases PyDict.mem_insert _ _ _ _ h with h' | h'
  · subst h'; simp [allowedFields, locationFields]
  rcases PyDict.mem_insert _ _ _ _ h' with h'' | h''
  · subst h''; simp [allowedFields, locationFields]
  · exact List.mem_append_left _ (mem_sanitize _ _ _ h'')

/-! Lemmas about the lifecycle operations. -/

theorem activate_user_username (u : String) (env : Env) :
    (activate_user u env).result.username = u := by
  unfold activate_user
  split
  · rfl
  · split <;> try rfl
    split <;> try rfl
    split <;> try rfl
    split <;> rfl

theorem deactivate_user_username (u : String) (env : Env) :
    (deactivate_user u env).result.username = u := by
  unfold deactivate_user
  split
  · rfl
  · split <;> try rfl
    split <;> try rfl
    split <;> try rfl
    split <;> rfl

theorem removeTeams_calls (u : String) (uid : Val) (env : Env)
    (teams : List PyDict) :
    ∀ c ∈ (removeTeams u uid env teams).1,
      ∃ tid, c = Call.removeFromTeam tid uid := by
  induction teams with
  | nil => simp [removeTeams]
  | cons t rest ih =>
    intro c hc
    simp only [removeTeams] at hc
    rcases List.mem_cons.mp hc with h | h
    · exact ⟨_, h⟩
    · exact ih c h

theorem activate_user_calls (u : String) (env : Env) :
    ∀ c ∈ (activate_user u env).calls,
      c = Call.searchUsers u ∨ (∃ uid, c = Call.getUserDetails uid) ∨
      (∃ uid, c = Call.putUpdate uid (sanitize_user_data env.detailsBody true)) := by
  intro c hc
  unfold activate_user at hc
  split at hc
  · simp at hc; subst hc; exact Or.inl rfl
  · split at hc
    · simp at hc; subst hc; exact Or.inl rfl
    · simp at hc; subst hc; exact Or.inl rfl
    · split at hc
      · simp at hc; subst hc; exact Or.inl rfl
      · split at hc
        · simp at hc
          rcases hc with rfl | rfl
          · exact Or.inl rfl
          · exact Or.inr (Or.inl ⟨_, rfl⟩)
        · split at hc <;>
          · simp at hc
            rcases hc with rfl | rfl | rfl
            · exact Or.inl rfl
            · exact Or.inr (Or.inl ⟨_, rfl⟩)
            · exact Or.inr (Or.inr ⟨_, rfl⟩)

theorem deactivate_user_calls (u : String) (env : Env) :
    ∀ c ∈ (deactivate_user u env).calls,
      c = Call.searchUsers u ∨ (∃ uid, c = Call.getUserDetails uid) ∨
      (∃ uid, c = Call.putUpdate uid (deactivationPayload env.detailsBody)) ∨
      (∃ uid, c = Call.getTeams uid) ∨
      (∃ tid uid, c = Call.removeFromTeam tid uid) := by
  intro c hc
  unfold deactivate_user at hc
  split at hc
  · simp at hc; subst hc; exact Or.inl rfl
  · split at hc
    · simp at hc; subst hc; exact Or.inl rfl
    · simp at hc; subst hc; exact Or.inl rfl
    · split at hc
      · simp at hc; subst hc; exact Or.inl rfl
      · split at hc
        · simp at hc
          rcases hc with rfl | rfl
          · exact Or.inl rfl
          · exact Or.inr (Or.inl ⟨_, rfl⟩)
        · split at hc
          · simp at hc
            rcases hc with rfl | rfl | rfl
            · exact Or.inl rfl
            · exact Or.inr (Or.inl ⟨_, rfl⟩)
            · exact Or.inr (Or.inr (Or.inl ⟨_, rfl⟩))
          · rw [List.mem_append] at hc
            rcases hc with hc | hc
            · simp at hc
              rcases hc with rfl | rfl | rfl | rfl
              · exact Or.inl rfl
              · exact Or.inr (Or.inl ⟨_, rfl⟩)
              · exact Or.inr (Or.inr (Or.inl ⟨_, rfl⟩))
              · exact Or.inr (Or.inr (Or.inr (Or.inl ⟨_, rfl⟩)))
            · split at hc
              · obtain ⟨tid, htid⟩ := removeTeams_calls _ _ _ _ c hc
                exact Or.inr (Or.inr (Or.inr (Or.inr ⟨tid, _, htid⟩)))
              · simp at hc

/-! Concrete records and environments used to instantiate theorems with
hypotheses on explicit inputs. -/

/-- A concrete active user record as the directory would return it. -/
def exampleUser : PyDict :=
  [("UserName", Val.vStr "Bob"), ("Id", Val.vStr "b1"),
   ("Active", Val.vBool true), ("Region", Val.vStr "EMEA")]

/-- A concrete inactive user record. -/
def exampleInactiveUser : PyDict :=
  [("UserName", Val.vStr "Carol"), ("Id", Val.vStr "c1"),
   ("Active", Val.vBool false)]

/-- A concrete user record with no Active field at all. -/
def exampleNoActiveUser : PyDict :=
  [("UserName", Val.vStr "Dana"), ("Id", Val.vStr "d1")]

/-- An environment in which every remote call about `exampleUser`
succeeds and the user belongs to no team. -/
def exampleEnv : Env :=
  ⟨200, [exampleUser], "", 200, exampleUser, "", 200, "", 200, [], "",
    fun _ => 200, fun _ => ""⟩

/-- An environment for `exampleInactiveUser` in which every remote call
succeeds. -/
def exampleEnvInactive : Env :=
  ⟨200, [exampleInactiveUser], "", 200, exampleInactiveUser, "", 200, "",
    200, [], "", fun _ => 200, fun _ => ""⟩

/-- An environment for `exampleNoActiveUser` in which every remote call
succeeds. -/
def exampleEnvNoActive : Env :=
  ⟨200, [exampleNoActiveUser], "", 200, exampleNoActiveUser, "", 200, "",
    200, [], "", fun _ => 200, fun _ => ""⟩

/-- An environment for `exampleUser` in which the update succeeds but the
deactivation team-cleanup phase fails everywhere: the team listing and
every team removal return status 500. -/
def exampleEnvTeamsFail : Env :=
  ⟨200, [exampleUser], "", 200, exampleUser, "", 204, "", 500,
    [[("Id", Val.vStr "t1")]], "server error", fun _ => 500,
    fun _ => "server error"⟩

/-- An environment for `exampleUser` in which the update call itself fails
with status 500. -/
def exampleEnvUpdateFail : Env :=
  ⟨200, [exampleUser], "", 200, exampleUser, "", 500, "server error", 200,
    [[("Id", Val.vStr "t1")]], "", fun _ => 200, fun _ => ""⟩

/-! Claim theorems. -/

/-- C10: the sanitizer is idempotent — for every user record `r` and flag
`a`, `sanitize_user_data (sanitize_user_data r a) a` equals
`sanitize_user_data r a` as a Python dict, i.e. both map every key to the
same value: the output keys are a subset of the allow-list, every output
key is retained on a second pass, and Active is re-set to the same flag. -/
theorem sanitize_user_data_idempotent (r : PyDict) (a : Bool) (k : String) :
    PyDict.lookup (sanitize_user_data (sanitize_user_data r a) a) k =
      PyDict.lookup (sanitize_user_data r a) k := by
  simp only [lookup_sanitize]
  by_cases h1 : k = "Active" <;> by_cases h2 : k ∈ allowedFields <;> simp_all

/-- C3 counterexample: on a record carrying a Region field, sanitizing with
active=false does not set Region to the empty string — the field is absent
from the output — and sanitizing with active=true does not leave Region
untouched — it is dropped as well. -/
theorem sanitize_location_counterexample :
    PyDict.lookup
        ([("Id", Val.vStr "1"), ("Region", Val.vStr "EMEA")] : PyDict)
        "Region" = some (Val.vStr "EMEA") ∧
    PyDict.lookup
        (sanitize_user_data [("Id", Val.vStr "1"), ("Region", Val.vStr "EMEA")] false)
        "Region" ≠ some (Val.vStr "") ∧
    PyDict.lookup
        (sanitize_user_data [("Id", Val.vStr "1"), ("Region", Val.vStr "EMEA")] true)
        "Region" = none := by
  refine ⟨?_, ?_, ?_⟩ <;> decide

/-- C3 (amended): the sanitizer's output never includes any field outside
the allow-list — in particular it contains no Region, Area or Country for
either flag; the empty-string clearing of those three location fields with
active=false is performed not by the sanitizer but by the deactivation
payload the operation builds from the sanitizer's output, and with
active=true the location fields are dropped rather than left untouched. -/
theorem sanitize_allowlist_and_location (r : PyDict) (a : Bool) :
    (∀ p ∈ sanitize_user_data r a, p.1 ∈ allowedFields) ∧
    PyDict.lookup (sanitize_user_data r a) "Region" = none ∧
    PyDict.lookup (sanitize_user_data r a) "Area" = none ∧
    PyDict.lookup (sanitize_user_data r a) "Country" = none ∧
    PyDict.lookup (deactivationPayload r) "Region" = some (Val.vStr "") ∧
    PyDict.lookup (deactivationPayload r) "Area" = some (Val.vStr "") ∧
    PyDict.lookup (deactivationPayload r) "Country" = some (Val.vStr "") := by
  refine ⟨fun p hp => mem_sanitize p r a hp, ?_, ?_, ?_, ?_, ?_, ?_⟩ <;>
    first
      | (rw [lookup_sanitize]; rfl)
      | (rw [lookup_deactivationPayload]; rfl)

/-- Witness for the amended C3 theorem on a concrete record. -/
theorem sanitize_allowlist_and_location_witness :
    (("Id", Val.vStr "7") ∈ sanitize_user_data [("Id", Val.vStr "7")] false) ∧
    ("Id", Val.vStr "7").1 ∈ allowedFields ∧
    PyDict.lookup (deactivationPayload [("Id", Val.vStr "7")]) "Region" =
      some (Val.vStr "") :=
  ⟨by decide,
    (sanitize_allowlist_and_location [("Id", Val.vStr "7")] false).1 _ (by decide),
    (sanitize_allowlist_and_location [("Id", Val.vStr "7")] false).2.2.2.2.1⟩

/-- C4 counterexample: a deactivation sends an update (PUT) body that
contains the field Region, which is outside the allow-list. -/
theorem update_payload_counterexample :
    Call.putUpdate (Val.vStr "b1") (deactivationPayload exampleUser) ∈
      (deactivate_user "bob" exampleEnv).calls ∧
    ("Region", Val.vStr "") ∈ deactivationPayload exampleUser ∧
    "Region" ∉ allowedFields := by
  refine ⟨?_, ?_, ?_⟩ <;> decide

/-- C4 (amended): every update (PUT) body sent by an activation contains no
field outside the allow-list; every update body sent by a deactivation
contains no field outside the allow-list plus the three location fields,
and carries Region, Area and Country with empty-string values. -/
theorem update_payload_fields (username : String) (env : Env) (uid : Val)
    (payload : PyDict) :
    (Call.putUpdate uid payload ∈ (activate_user username env).calls →
      ∀ p ∈ payload, p.1 ∈ allowedFields) ∧
    (Call.putUpdate uid payload ∈ (deactivate_user username env).calls →
      (∀ p ∈ payload, p.1 ∈ allowedFields ++ locationFields) ∧
      PyDict.lookup payload "Region" = some (Val.vStr "") ∧
      PyDict.lookup payload "Area" = some (Val.vStr "") ∧
      PyDict.lookup payload "Country" = some (Val.vStr "")) := by
  constructor
  · intro hmem
    rcases activate_user_calls username env _ hmem with h | ⟨x, h⟩ | ⟨x, h⟩
    · exact absurd h (by simp)
    · exact absurd h (by simp)
    · obtain ⟨h1, h2⟩ := Call.putUpdate.inj h
      subst h2
      exact fun p hp => mem_sanitize p env.detailsBody true hp
  · intro hmem
    rcases deactivate_user_calls username env _ hmem with
      h | ⟨x, h⟩ | ⟨x, h⟩ | ⟨x, h⟩ | ⟨x, y, h⟩
    · exact absurd h (by simp)
    · exact absurd h (by simp)
    · obtain ⟨h1, h2⟩ := Call.putUpdate.inj h
      subst h2
      refine ⟨fun p hp => mem_deactivationPayload p env.detailsBody hp,
        ?_, ?_, ?_⟩ <;> (rw [lookup_deactivationPayload]; rfl)
    · exact absurd h (by simp)
    · exact absurd h (by simp)

/-- Witness for the amended C4 theorem on a concrete deactivation run. -/
theorem update_payload_fields_witness :
    (Call.putUpdate (Val.vStr "b1") (deactivationPayload exampleUser) ∈
      (deactivate_user "bob" exampleEnv).calls) ∧
    ((∀ p ∈ deactivationPayload exampleUser,
        p.1 ∈ allowedFields ++ locationFields) ∧
      PyDict.lookup (deactivationPayload exampleUser) "Region" =
        some (Val.vStr "") ∧
      PyDict.lookup (deactivationPayload exampleUser) "Area" =
        some (Val.vStr "") ∧
      PyDict.lookup (deactivationPayload exampleUser) "Country" =
        some (Val.vStr "")) :=
  ⟨by decide,
    (update_payload_fields "bob" exampleEnv (Val.vStr "b1")
      (deactivationPayload exampleUser)).2 (by decide)⟩

/-! String disequality helpers: the failure and success messages of the
lifecycle operations never coincide with the duplicate-state messages,
whatever text the remote response contributes. -/

theorem failed_details_ne_dup_act (t : String) :
    "Failed to get user details: " ++ t ≠
      "Error: User is already active. Duplicate activation attempt." := by
  intro h
  have h2 : ("Failed to get user details: " ++ t).data.head? = some 'F' := rfl
  rw [h] at h2
  exact absurd h2 (by decide)

theorem failed_activate_ne_dup_act (t : String) :
    "Failed to activate user: " ++ t ≠
      "Error: User is already active. Duplicate activation attempt." := by
  intro h
  have h2 : ("Failed to activate user: " ++ t).data.head? = some 'F' := rfl
  rw [h] at h2
  exact absurd h2 (by decide)

theorem failed_details_ne_dup_deact (t : String) :
    "Failed to get user details: " ++ t ≠
      "Error: User is already inactive. Duplicate deactivation attempt." := by
  intro h
  have h2 : ("Failed to get user details: " ++ t).data.head? = some 'F' := rfl
  rw [h] at h2
  exact absurd h2 (by decide)

theorem failed_deactivate_ne_dup_deact (t : String) :
    "Failed to deactivate user: " ++ t ≠
      "Error: User is already inactive. Duplicate deactivation attempt." := by
  intro h
  have h2 : ("Failed to deactivate user: " ++ t).data.head? = some 'F' := rfl
  rw [h] at h2
  exact absurd h2 (by decide)

theorem act_success_ne_dup_act :
    "User activated successfully" ≠
      "Error: User is already active. Duplicate activation attempt." := by
  decide

theorem deact_success_ne_dup_deact :
    "User deactivated, removed from all teams, and profile data cleared" ≠
      "Error: User is already inactive. Duplicate deactivation attempt." := by
  decide

/-! Loop invariants of the batch runner. -/

theorem processRows_activation (rows : List (String × Env)) :
    ∀ acc calls, ∃ cs,
      processRows "activation" rows acc calls =
        .ok (acc ++ rows.map (fun r => (activate_user r.1 r.2).result), cs) := by
  induction rows with
  | nil => intro acc calls; exact ⟨calls, by simp [processRows]⟩
  | cons r rest ih =>
    intro acc calls
    obtain ⟨u, env⟩ := r
    obtain ⟨cs, hcs⟩ := ih (acc ++ [(activate_user u env).result])
      (calls ++ (activate_user u env).calls)
    refine ⟨cs, ?_⟩
    simp only [processRows]
    rw [if_true, hcs]
    simp

theorem processRows_deactivation (rows : List (String × Env)) :
    ∀ acc calls, ∃ cs,
      processRows "deactivation" rows acc calls =
        .ok (acc ++ rows.map (fun r => (deactivate_user r.1 r.2).result), cs) := by
  induction rows with
  | nil => intro acc calls; exact ⟨calls, by simp [processRows]⟩
  | cons r rest ih =>
    intro acc calls
    obtain ⟨u, env⟩ := r
    obtain ⟨cs, hcs⟩ := ih (acc ++ [(deactivate_user u env).result])
      (calls ++ (deactivate_user u env).calls)
    refine ⟨cs, ?_⟩
    simp only [processRows]
    rw [if_true, hcs]
    simp

/-- C1: for every input row list and a recognized operation type, the batch
runner succeeds with exactly one OperationResult per input row, in input
order, each carrying its row's username, and each row's result is exactly
the result its lifecycle operation produces — so a failure on one username
never aborts or skips the processing of subsequent usernames. -/
theorem process_csv_per_row (operation_type : String)
    (rows : List (String × Env))
    (h : operation_type = "activation" ∨ operation_type = "deactivation") :
    ∃ results cs, process_csv operation_type rows = .ok (results, cs) ∧
      results.length = rows.length ∧
      (∀ i (hi : i < results.length) (hr : i < rows.length),
        (results.get ⟨i, hi⟩).username = (rows.get ⟨i, hr⟩).1) ∧
      (operation_type = "activation" →
        results = rows.map fun r => (activate_user r.1 r.2).result) ∧
      (operation_type = "deactivation" →
        results = rows.map fun r => (deactivate_user r.1 r.2).result) := by
  rcases h with rfl | rfl
  · obtain ⟨cs, hcs⟩ := processRows_activation rows [] []
    refine ⟨rows.map (fun r => (activate_user r.1 r.2).result), cs, ?_,
      by simp, ?_, fun _ => rfl, fun hh => absurd hh (by decide)⟩
    · unfold process_csv
      simpa using hcs
    · intro i hi hr
      simp [activate_user_username]
  · obtain ⟨cs, hcs⟩ := processRows_deactivation rows [] []
    refine ⟨rows.map (fun r => (deactivate_user r.1 r.2).result), cs, ?_,
      by simp, ?_, fun hh => absurd hh (by decide), fun _ => rfl⟩
    · unfold process_csv
      simpa using hcs
    · intro i hi hr
      simp [deactivate_user_username]

/-- Witness for the C1 theorem on a concrete one-row batch. -/
theorem process_csv_per_row_witness :
    ("activation" = "activation" ∨ "activation" = "deactivation") ∧
    (∃ results cs,
      process_csv "activation" [("bob", exampleEnv)] = .ok (results, cs) ∧
      results.length = [("bob", exampleEnv)].length ∧
      (∀ i (hi : i < results.length)
          (hr : i < [("bob", exampleEnv)].length),
        (results.get ⟨i, hi⟩).username =
          ([("bob", exampleEnv)].get ⟨i, hr⟩).1) ∧
      ("activation" = "activation" →
        results = [("bob", exampleEnv)].map
          fun r => (activate_user r.1 r.2).result) ∧
      ("activation" = "deactivation" →
        results = [("bob", exampleEnv)].map
          fun r => (deactivate_user r.1 r.2).result)) :=
  ⟨Or.inl rfl,
    process_csv_per_row "activation" [("bob", exampleEnv)] (Or.inl rfl)⟩

/-- C2: when the search succeeds and the matched record's Active flag is
true, activation fails with the duplicate-activation message and issues no
update (PUT) call; symmetrically, when the matched record's Active flag is
false, deactivation fails with the duplicate-deactivation message and
issues no update call. -/
theorem duplicate_state_guards (username : String) (env : Env) (user : PyDict)
    (hs : env.searchStatus = 200)
    (hm : findMatch env.searchBody username = .ok (some user)) :
    (PyDict.lookup user "Active" = some (Val.vBool true) →
      activate_user username env =
        ⟨⟨username, false,
          "Error: User is already active. Duplicate activation attempt."⟩,
          [Call.searchUsers username], []⟩ ∧
      ∀ c ∈ (activate_user username env).calls, c.isPut = false) ∧
    (PyDict.lookup user "Active" = some (Val.vBool false) →
      deactivate_user username env =
        ⟨⟨username, false,
          "Error: User is already inactive. Duplicate deactivation attempt."⟩,
          [Call.searchUsers username], []⟩ ∧
      ∀ c ∈ (deactivate_user username env).calls, c.isPut = false) := by
  constructor
  · intro hA
    have h : activate_user username env =
        ⟨⟨username, false,
          "Error: User is already active. Duplicate activation attempt."⟩,
          [Call.searchUsers username], []⟩ := by
      simp [activate_user, hs, hm, PyDict.getD, hA, truthy]
    refine ⟨h, ?_⟩
    rw [h]
    intro c hc
    simp at hc
    subst hc
    rfl
  · intro hA
    have h : deactivate_user username env =
        ⟨⟨username, false,
          "Error: User is already inactive. Duplicate deactivation attempt."⟩,
          [Call.searchUsers username], []⟩ := by
      simp [deactivate_user, hs, hm, PyDict.getD, hA, truthy]
    refine ⟨h, ?_⟩
    rw [h]
    intro c hc
    simp at hc
    subst hc
    rfl

/-- Witness for the C2 theorem on a concrete already-active user. -/
theorem duplicate_state_guards_witness :
    exampleEnv.searchStatus = 200 ∧
    findMatch exampleEnv.searchBody "bob" = .ok (some exampleUser) ∧
    PyDict.lookup exampleUser "Active" = some (Val.vBool true) ∧
    (activate_user "bob" exampleEnv =
      ⟨⟨"bob", false,
        "Error: User is already active. Duplicate activation attempt."⟩,
        [Call.searchUsers "bob"], []⟩ ∧
      ∀ c ∈ (activate_user "bob" exampleEnv).calls, c.isPut = false) :=
  ⟨rfl, by decide, by decide,
    (duplicate_state_guards "bob" exampleEnv exampleUser rfl
      (by decide)).1 (by decide)⟩

/-- C5 counterexample: with an empty username list, an unrecognized
operation type is not reported at all — the batch returns success with
zero results instead of a batch-level error, because the operation type is
only checked inside the per-row loop. -/
theorem invalid_op_counterexample :
    "frobnicate" ≠ "activation" ∧ "frobnicate" ≠ "deactivation" ∧
    process_csv "frobnicate" [] = .ok ([], []) := by
  refine ⟨by decide, by decide, rfl⟩

/-- C5 (amended): for every NONEMPTY input row list, an operation type
outside activation and deactivation produces the single batch-level error
with zero per-row results and zero HTTP calls — no lifecycle operation
runs for any row; for the empty list the loop body never executes, so the
invalid operation type goes undetected and the batch reports success with
zero results. -/
theorem invalid_op_batch_error (operation_type : String)
    (rows : List (String × Env))
    (h1 : operation_type ≠ "activation")
    (h2 : operation_type ≠ "deactivation") :
    (rows = [] → process_csv operation_type rows = .ok ([], [])) ∧
    (rows ≠ [] →
      process_csv operation_type rows =
        .error ("Invalid operation type", [])) := by
  constructor
  · rintro rfl; rfl
  · intro hne
    match rows with
    | [] => exact absurd rfl hne
    | (u, env) :: rest => simp [process_csv, processRows, h1, h2]

/-- Witness for the amended C5 theorem on a concrete one-row batch. -/
theorem invalid_op_batch_error_witness :
    "frobnicate" ≠ "activation" ∧ "frobnicate" ≠ "deactivation" ∧
    ([("x", exampleEnv)] ≠ ([] : List (String × Env))) ∧
    process_csv "frobnicate" [("x", exampleEnv)] =
      .error ("Invalid operation type", []) :=
  ⟨by decide, by decide, by simp,
    (invalid_op_batch_error "frobnicate" [("x", exampleEnv)]
      (by decide) (by decide)).2 (by simp)⟩

/-- C6: a deactivation whose update (PUT) call returns a status outside
200, 201 and 204 reports failure with the remote error text, and the
entire team-cleanup phase is skipped: no team-listing call and no
team-removal call is issued. -/
theorem deactivate_update_failure (username : String) (env : Env)
    (user : PyDict)
    (hs : env.searchStatus = 200)
    (hm : findMatch env.searchBody username = .ok (some user))
    (hA : truthy (PyDict.getD user "Active" (Val.vBool true)) = true)
    (hd : env.detailsStatus = 200)
    (hu : env.updateStatus ∉ ([200, 201, 204] : List Nat)) :
    (deactivate_user username env).result.success = false ∧
    (deactivate_user username env).result.message =
      "Failed to deactivate user: " ++ env.updateText ∧
    ∀ c ∈ (deactivate_user username env).calls, c.isTeamCall = false := by
  simp at hu
  have h : deactivate_user username env =
      ⟨⟨username, false, "Failed to deactivate user: " ++ env.updateText⟩,
        [Call.searchUsers username,
         Call.getUserDetails (PyDict.getD user "Id" Val.vNull),
         Call.putUpdate (PyDict.getD user "Id" Val.vNull)
           (deactivationPayload env.detailsBody)], []⟩ := by
    simp only [deactivate_user, hs, hm]
    simp [hA, hd, hu]
  refine ⟨by rw [h], by rw [h], ?_⟩
  rw [h]
  intro c hc
  simp at hc
  rcases hc with rfl | rfl | rfl <;> rfl

/-- Witness for the C6 theorem on a concrete failing update. -/
theorem deactivate_update_failure_witness :
    exampleEnvUpdateFail.searchStatus = 200 ∧
    findMatch exampleEnvUpdateFail.searchBody "bob" =
      .ok (some exampleUser) ∧
    truthy (PyDict.getD exampleUser "Active" (Val.vBool true)) = true ∧
    exampleEnvUpdateFail.detailsStatus = 200 ∧
    exampleEnvUpdateFail.updateStatus ∉ ([200, 201, 204] : List Nat) ∧
    ((deactivate_user "bob" exampleEnvUpdateFail).result.success = false ∧
      (deactivate_user "bob" exampleEnvUpdateFail).result.message =
        "Failed to deactivate user: " ++ exampleEnvUpdateFail.updateText ∧
      ∀ c ∈ (deactivate_user "bob" exampleEnvUpdateFail).calls,
        c.isTeamCall = false) :=
  ⟨rfl, by decide, by decide, rfl, by decide,
    deactivate_update_failure "bob" exampleEnvUpdateFail exampleUser rfl
      (by decide) (by decide) rfl (by decide)⟩

/-- C7: a deactivation whose update (PUT) call succeeds reports success
with the full success message, whatever the team-listing response status
and the team-removal response statuses are — team-cleanup failures are
absorbed and invisible in the per-user result. -/
theorem deactivate_update_success (username : String) (env : Env)
    (user : PyDict)
    (hs : env.searchStatus = 200)
    (hm : findMatch env.searchBody username = .ok (some user))
    (hA : truthy (PyDict.getD user "Active" (Val.vBool true)) = true)
    (hd : env.detailsStatus = 200)
    (hu : env.updateStatus ∈ ([200, 201, 204] : List Nat)) :
    (deactivate_user username env).result =
      ⟨username, true,
        "User deactivated, removed from all teams, and profile data cleared"⟩ := by
  simp at hu
  simp only [deactivate_user, hs, hm]
  simp [hA, hd, hu]

/-- Witness for the C7 theorem on a concrete run whose team listing and
team removal all fail with status 500 while the update succeeds. -/
theorem deactivate_update_success_witness :
    exampleEnvTeamsFail.searchStatus = 200 ∧
    findMatch exampleEnvTeamsFail.searchBody "bob" =
      .ok (some exampleUser) ∧
    truthy (PyDict.getD exampleUser "Active" (Val.vBool true)) = true ∧
    exampleEnvTeamsFail.detailsStatus = 200 ∧
    exampleEnvTeamsFail.updateStatus ∈ ([200, 201, 204] : List Nat) ∧
    (deactivate_user "bob" exampleEnvTeamsFail).result =
      ⟨"bob", true,
        "User deactivated, removed from all teams, and profile data cleared"⟩ :=
  ⟨rfl, by decide, by decide, rfl, by decide,
    deactivate_update_success "bob" exampleEnvTeamsFail exampleUser rfl
      (by decide) (by decide) rfl (by decide)⟩

/-- C8: deactivating a username whose search returns a matching record
that is already inactive yields exactly the duplicate-deactivation failure
result, and the only HTTP call issued is the initial search — in
particular, zero calls beyond the search and the detail fetch. -/
theorem deactivate_already_inactive (username : String) (env : Env)
    (user : PyDict)
    (hs : env.searchStatus = 200)
    (hm : findMatch env.searchBody username = .ok (some user))
    (hA : PyDict.lookup user "Active" = some (Val.vBool false)) :
    deactivate_user username env =
      ⟨⟨username, false,
        "Error: User is already inactive. Duplicate deactivation attempt."⟩,
        [Call.searchUsers username], []⟩ ∧
    ∀ c ∈ (deactivate_user username env).calls,
      c = Call.searchUsers username ∨
      c = Call.getUserDetails (PyDict.getD user "Id" Val.vNull) := by
  have h : deactivate_user username env =
      ⟨⟨username, false,
        "Error: User is already inactive. Duplicate deactivation attempt."⟩,
        [Call.searchUsers username], []⟩ := by
    simp [deactivate_user, hs, hm, PyDict.getD, hA, truthy]
  refine ⟨h, ?_⟩
  rw [h]
  intro c hc
  simp at hc
  subst hc
  exact Or.inl rfl

/-- Witness for the C8 theorem on a concrete already-inactive user. -/
theorem deactivate_already_inactive_witness :
    exampleEnvInactive.searchStatus = 200 ∧
    findMatch exampleEnvInactive.searchBody "carol" =
      .ok (some exampleInactiveUser) ∧
    PyDict.lookup exampleInactiveUser "Active" = some (Val.vBool false) ∧
    (deactivate_user "carol" exampleEnvInactive =
      ⟨⟨"carol", false,
        "Error: User is already inactive. Duplicate deactivation attempt."⟩,
        [Call.searchUsers "carol"], []⟩ ∧
      ∀ c ∈ (deactivate_user "carol" exampleEnvInactive).calls,
        c = Call.searchUsers "carol" ∨
        c = Call.getUserDetails
          (PyDict.getD exampleInactiveUser "Id" Val.vNull)) :=
  ⟨rfl, by decide, by decide,
    deactivate_already_inactive "carol" exampleEnvInactive
      exampleInactiveUser rfl (by decide) (by decide)⟩

/-- C9: when the matched record has no Active field at all, the activation
guard evaluates the default False (user treated as inactive, so activation
proceeds to the detail fetch) while the deactivation guard evaluates the
default True (user treated as active, so deactivation proceeds to the
detail fetch), and neither operation ever reports a duplicate-state
message for such a record. -/
theorem missing_active_guards (username : String) (env : Env) (user : PyDict)
    (hs : env.searchStatus = 200)
    (hm : findMatch env.searchBody username = .ok (some user))
    (hA : PyDict.lookup user "Active" = none) :
    truthy (PyDict.getD user "Active" (Val.vBool false)) = false ∧
    truthy (PyDict.getD user "Active" (Val.vBool true)) = true ∧
    Call.getUserDetails (PyDict.getD user "Id" Val.vNull) ∈
      (activate_user username env).calls ∧
    Call.getUserDetails (PyDict.getD user "Id" Val.vNull) ∈
      (deactivate_user username env).calls ∧
    (activate_user username env).result.message ≠
      "Error: User is already active. Duplicate activation attempt." ∧
    (deactivate_user username env).result.message ≠
      "Error: User is already inactive. Duplicate deactivation attempt." := by
  have hga : PyDict.getD user "Active" (Val.vBool false) = Val.vBool false := by
    simp [PyDict.getD, hA]
  have hgd : PyDict.getD user "Active" (Val.vBool true) = Val.vBool true := by
    simp [PyDict.getD, hA]
  refine ⟨by simp [hga, truthy], by simp [hgd, truthy], ?_, ?_, ?_, ?_⟩
  · simp only [activate_user, hs, hm]
    simp [hga, truthy]
    split
    · split <;> simp
    · simp
  · simp only [deactivate_user, hs, hm]
    simp [hgd, truthy]
    split
    · split <;> simp
    · simp
  · simp only [activate_user, hs, hm]
    simp [hga, truthy]
    split
    · split
      · exact act_success_ne_dup_act
      · exact failed_activate_ne_dup_act env.updateText
    · exact failed_details_ne_dup_act env.detailsText
  · simp only [deactivate_user, hs, hm]
    simp [hgd, truthy]
    split
    · split
      · exact failed_deactivate_ne_dup_deact env.updateText
      · exact deact_success_ne_dup_deact
    · exact failed_details_ne_dup_deact env.detailsText

/-- Witness for the C9 theorem on a concrete record without an Active
field. -/
theorem missing_active_guards_witness :
    exampleEnvNoActive.searchStatus = 200 ∧
    findMatch exampleEnvNoActive.searchBody "dana" =
      .ok (some exampleNoActiveUser) ∧
    PyDict.lookup exampleNoActiveUser "Active" = none ∧
    (truthy (PyDict.getD exampleNoActiveUser "Active" (Val.vBool false)) =
        false ∧
      truthy (PyDict.getD exampleNoActiveUser "Active" (Val.vBool true)) =
        true ∧
      Call.getUserDetails (PyDict.getD exampleNoActiveUser "Id" Val.vNull) ∈
        (activate_user "dana" exampleEnvNoActive).calls ∧
      Call.getUserDetails (PyDict.getD exampleNoActiveUser "Id" Val.vNull) ∈
        (deactivate_user "dana" exampleEnvNoActive).calls ∧
      (activate_user "dana" exampleEnvNoActive).result.message ≠
        "Error: User is already active. Duplicate activation attempt." ∧
      (deactivate_user "dana" exampleEnvNoActive).result.message ≠
        "Error: User is already inactive. Duplicate deactivation attempt.") :=
  ⟨rfl, by decide, by decide,
    missing_active_guards "dana" exampleEnvNoActive exampleNoActiveUser rfl
      (by decide) (by decide)⟩

end LitmosTool
